import Mathlib

/-!
Shallow embedding of the hincha-api order subsystem.

Sources:
- `src/app/api/orders/route.ts` `POST` (order creation with pricing and the
  soft stock check) — embedded as `runCreate`;
- `src/app/api/orders/[id]/route.ts` `PATCH` (admin status transition with
  the stock decrement on `paid`) — embedded as `patchOrderStatus`;
- `src/app/api/seller/orders/[id]/route.ts` `PATCH` (deposit recording and
  the balance ledger transaction on the `paid` transition) — embedded as
  `patchSellerOrder`.

Machine integers of the store are Postgres INTEGER columns with no CHECK
constraint (see `prisma/migrations`), so stock is embedded as `Int` and a
decrement may produce a negative value, exactly as in the database.
Timestamps carry no information the claims need, so `DateTime` columns are
embedded as `Option Unit` (stamped or not).  Generated cuid ids are embedded
as positive `Nat` ids (a cuid is a non-empty string, hence always truthy in
the JavaScript guards `!order.depositTransactionId`).
-/

namespace Hincha

/-- A `Product` row, restricted to the columns the order flow reads. -/
structure Product where
  id : String
  title : String
  basePrice : Int
  imageUrl : Option String
deriving Repr, DecidableEq

/-- A `ProductVariant` row joined with its owning product, as returned by
`prisma.productVariant.findMany({ include: { product } })` in the create
route.  `price` is the nullable variant-level price override. -/
structure Variant where
  id : String
  name : String
  stock : Int
  price : Option Int
  product : Product
deriving Repr, DecidableEq

/-- The order status vocabulary admitted by the zod schemas of both PATCH
routes: `z.enum(["pending", "paid", "canceled"])`. -/
inductive OrderStatus
  | pending
  | paid
  | canceled
deriving Repr, DecidableEq

/-- An `OrderItem` snapshot row as created at checkout. -/
structure OrderItem where
  productId : String
  variantId : Option String
  title : String
  price : Int
  quantity : Int
  imageUrl : Option String
deriving Repr, DecidableEq

/-- Ledger transaction type, `z.enum`-backed Prisma enum `TransactionType`. -/
inductive TxnType
  | income
  | expense
deriving Repr, DecidableEq

/-- A ledger `Transaction` row.  `id` is the embedded cuid (a positive
`Nat`); `occurredAt`/`createdAt` carry nothing the claims need. -/
structure Txn where
  id : Nat
  userId : String
  txType : TxnType
  amount : Int
  description : String
  category : String
deriving Repr, DecidableEq

/-- An `Order` row, restricted to the columns the order flow touches. -/
structure Order where
  id : Nat
  userId : Option String
  status : OrderStatus
  subtotal : Int
  totalPrice : Int
  depositAmount : Option Int
  depositPaidAt : Option Unit
  depositTransactionId : Option Nat
  balancePaidAt : Option Unit
  balanceTransactionId : Option Nat
  items : List OrderItem
deriving Repr, DecidableEq

/-- The slice of the relational store the order flow reads and writes. -/
structure DB where
  variants : List Variant
  orders : List Order
  transactions : List Txn
deriving Repr, DecidableEq

/-- Route responses relevant to the claims.  A thrown error caught by the
route-level `catch` is `badRequest`; every error path returns the store
unchanged (the Prisma interactive transaction rolls back). -/
inductive Resp
  | created (orderId : Nat)
  | patched
  | productMismatch
  | outOfStock (detail : String)
  | orderNotFound
  | badRequest
deriving Repr, DecidableEq

/-! ## Order creation (`POST /api/orders`) -/

/-- One entry of the request's `items` array.  The route matches
`it.variantId` against the variant **name** column
(`where: { name: { in: variantIds } }`). -/
structure ItemReq where
  productId : String
  variantId : String
  qty : Int
deriving Repr, DecidableEq

/-- The create-order request body after zod parsing (contact fields omitted:
they are copied verbatim and no claim mentions them). -/
structure CreateReq where
  userId : Option String
  items : List ItemReq
  customName : Option String
  customNumber : Option Int
  hasPatch : Bool
deriving Repr, DecidableEq

def CUSTOM_NAME_PRICE : Int := 15000
def CUSTOM_NUMBER_PRICE : Int := 10000
def PATCH_PRICE : Int := 20000

/-- JavaScript truthiness of the optional `customName` string:
`if (customName)` is false for `undefined` and for the empty string. -/
def truthyStr : Option String → Bool
  | some s => !(s = "")
  | none => false

/-- JavaScript truthiness of the optional `customNumber`:
`if (customNumber)` is false for `undefined` and for `0`. -/
def truthyInt : Option Int → Bool
  | some n => !(n = 0)
  | none => false

/-- The customization surcharge accumulator of the create route
(`let extras = 0; if (customName) extras += ...`). -/
def extras (r : CreateReq) : Int :=
  (if truthyStr r.customName then CUSTOM_NAME_PRICE else 0) +
  (if truthyInt r.customNumber then CUSTOM_NUMBER_PRICE else 0) +
  (if r.hasPatch then PATCH_PRICE else 0)

/-- The variant rows fetched by
`findMany({ where: { name: { in: items.map(i => i.variantId) } } })`:
each catalog row whose name occurs among the requested variantIds, once. -/
def vsOf (db : DB) (r : CreateReq) : List Variant :=
  db.variants.filter (fun v => decide (v.name ∈ r.items.map ItemReq.variantId))

/-- The stock-check / subtotal loop of the create route: for each item,
resolve the variant by name (`variants.find(v => v.name === it.variantId)!`
— a failed lookup throws, caught as `badRequest`), reject with
`OUT_OF_STOCK` when `v.stock < it.qty`, else accumulate
`(v.price ?? v.product.basePrice) * it.qty`. -/
def stockCheckSubtotal (vs : List Variant) : List ItemReq → Except Resp Int
  | [] => .ok 0
  | it :: rest =>
    match vs.find? (fun v => decide (v.name = it.variantId)) with
    | none => .error .badRequest
    | some v =>
      if v.stock < it.qty then
        .error (.outOfStock (v.product.title ++ " - " ++ v.name))
      else
        match stockCheckSubtotal vs rest with
        | .error e => .error e
        | .ok s => .ok ((v.price.getD v.product.basePrice) * it.qty + s)

/-- The `items.create` mapping of the create route: one snapshot row per
requested item, resolving the same variant lookup a second time. -/
def snapshotItems (vs : List Variant) : List ItemReq → Option (List OrderItem)
  | [] => some []
  | it :: rest =>
    match vs.find? (fun v => decide (v.name = it.variantId)) with
    | none => none
    | some v =>
      match snapshotItems vs rest with
      | none => none
      | some ls =>
        some ({ productId := v.product.id,
                variantId := some v.id,
                title := v.product.title ++ " (" ++ v.name ++ ")",
                price := v.price.getD v.product.basePrice,
                quantity := it.qty,
                imageUrl := v.product.imageUrl } :: ls)

/-- `POST /api/orders`: fetch the variants, reject with `PRODUCT_MISMATCH`
when the row count differs from the item count, run the stock/subtotal
loop, then persist the order (status `pending`) with its snapshot items in
one transaction.  Stock is not touched ("Nota: stock se descuenta al marcar
paid").  The new order's id is the embedded row id `db.orders.length`. -/
def runCreate (db : DB) (r : CreateReq) : DB × Resp :=
  let vs := vsOf db r
  if vs.length ≠ r.items.length then
    (db, .productMismatch)
  else
    match stockCheckSubtotal vs r.items with
    | .error e => (db, e)
    | .ok subtotal =>
      match snapshotItems vs r.items with
      | none => (db, .badRequest)
      | some lines =>
        let o : Order :=
          { id := db.orders.length,
            userId := r.userId,
            status := .pending,
            subtotal := subtotal,
            totalPrice := subtotal + extras r,
            depositAmount := none,
            depositPaidAt := none,
            depositTransactionId := none,
            balancePaidAt := none,
            balanceTransactionId := none,
            items := lines }
        ({ db with orders := db.orders ++ [o] }, .created o.id)

/-! ## Admin status transition (`PATCH /api/orders/[id]`) -/

/-- Replace the order row with the given id (`prisma.order.update`). -/
def updateOrderList (os : List Order) (oid : Nat) (f : Order → Order) : List Order :=
  os.map (fun o => if o.id = oid then f o else o)

/-- `tx.productVariant.update({ where: { id }, data: { stock: { decrement:
q } } })`: throws (`none`) when the row is absent, else subtracts — the
column has no CHECK constraint, so the result may be negative. -/
def decStock (vs : List Variant) (vid : String) (q : Int) : Option (List Variant) :=
  if vs.any (fun v => v.id = vid) then
    some (vs.map (fun v => if v.id = vid then { v with stock := v.stock - q } else v))
  else none

/-- The decrement loop of the admin PATCH: items with a null `variantId` are
skipped, the rest decrement their variant's stock in order. -/
def decStockAll (vs : List Variant) : List OrderItem → Option (List Variant)
  | [] => some vs
  | it :: rest =>
    match it.variantId with
    | none => decStockAll vs rest
    | some vid =>
      match decStock vs vid it.quantity with
      | none => none
      | some vs2 => decStockAll vs2 rest

/-- `PATCH /api/orders/[id]`: set the requested status unconditionally
(`order.update` throws when the order is absent), and when the new status is
`paid` decrement stock for every item with a variant.  There is no check of
the previous status and no re-verification of stock. -/
def patchOrderStatus (db : DB) (oid : Nat) (status : OrderStatus) : DB × Resp :=
  match db.orders.find? (fun o => decide (o.id = oid)) with
  | none => (db, .badRequest)
  | some o =>
    if status = .paid then
      match decStockAll db.variants o.items with
      | none => (db, .badRequest)
      | some vs2 =>
        ({ db with
            variants := vs2,
            orders := updateOrderList db.orders oid (fun x => { x with status := status }) },
         .patched)
    else
      ({ db with
          orders := updateOrderList db.orders oid (fun x => { x with status := status }) },
       .patched)

/-! ## Seller status / deposit patch (`PATCH /api/seller/orders/[id]`) -/

/-- Request body after zod parsing: both fields optional, `depositAmount`
positive when present. -/
structure SellerBody where
  status : Option OrderStatus
  depositAmount : Option Int
deriving Repr, DecidableEq

/-- The route's `updateData` object: fields are present (`some`) or absent. -/
structure UpdateData where
  status : Option OrderStatus := none
  depositAmount : Option Int := none
  depositPaidAt : Option Unit := none
  depositTransactionId : Option Nat := none
  balancePaidAt : Option Unit := none
  balanceTransactionId : Option Nat := none
deriving Repr, DecidableEq

/-- `prisma.order.update({ data: updateData })`: fields present in
`updateData` overwrite the row, absent fields are kept. -/
def applyUpdate (o : Order) (u : UpdateData) : Order :=
  { o with
    status := match u.status with | some s => s | none => o.status,
    depositAmount := match u.depositAmount with | some d => some d | none => o.depositAmount,
    depositPaidAt := match u.depositPaidAt with | some x => some x | none => o.depositPaidAt,
    depositTransactionId :=
      match u.depositTransactionId with | some t => some t | none => o.depositTransactionId,
    balancePaidAt := match u.balancePaidAt with | some x => some x | none => o.balancePaidAt,
    balanceTransactionId :=
      match u.balanceTransactionId with | some t => some t | none => o.balanceTransactionId }

/-- JavaScript `a || b` on a possibly-absent number: an absent or zero `a`
falls through to `b`. -/
def jsOrInt (a : Option Int) (b : Int) : Int :=
  match a with
  | some x => if x = 0 then b else x
  | none => b

/-- `PATCH /api/seller/orders/[id]`: fetch the order (404 when absent), then
in one transaction (1) when `depositAmount` is present and the order has no
`depositTransactionId`, create a deposit INCOME transaction and stamp the
deposit fields; (2) when the body asks for `paid` and the order is not yet
`paid`, compute `balance = totalPrice − (updateData.depositAmount ||
order.depositAmount || 0)`, create a balance INCOME transaction when
`balance > 0` and no `balanceTransactionId` exists, and set status `paid`;
otherwise set the requested status when it differs; finally apply
`updateData` to the row.  Fresh transaction ids are `length + 1`. -/
def patchSellerOrder (db : DB) (oid : Nat) (body : SellerBody) (adminId : String) :
    DB × Resp :=
  match db.orders.find? (fun o => decide (o.id = oid)) with
  | none => (db, .orderNotFound)
  | some order =>
    let p1 : List Txn × UpdateData :=
      match body.depositAmount with
      | some d =>
        if order.depositTransactionId.isNone then
          let tid := db.transactions.length + 1
          (db.transactions ++
             [{ id := tid,
                userId := order.userId.getD adminId,
                txType := .income,
                amount := d,
                description := "Seña del pedido",
                category := "venta" }],
           { status := none,
             depositAmount := some d,
             depositPaidAt := some (),
             depositTransactionId := some tid,
             balancePaidAt := none,
             balanceTransactionId := none })
        else (db.transactions, {})
      | none => (db.transactions, {})
    let p2 : List Txn × UpdateData :=
      if body.status = some .paid ∧ order.status ≠ .paid then
        let dep := jsOrInt p1.2.depositAmount (jsOrInt order.depositAmount 0)
        let balance := order.totalPrice - dep
        let p3 : List Txn × UpdateData :=
          if balance > 0 ∧ order.balanceTransactionId.isNone then
            let tid := p1.1.length + 1
            (p1.1 ++
               [{ id := tid,
                  userId := order.userId.getD adminId,
                  txType := .income,
                  amount := balance,
                  description := "Saldo del pedido",
                  category := "venta" }],
             { p1.2 with balancePaidAt := some (), balanceTransactionId := some tid })
          else p1
        (p3.1, { p3.2 with status := some .paid })
      else
        match body.status with
        | some s => if s ≠ order.status then (p1.1, { p1.2 with status := some s }) else p1
        | none => p1
    ({ db with
        transactions := p2.1,
        orders := updateOrderList db.orders oid (fun o => applyUpdate o p2.2) },
     .patched)

/-! ## Helper lemmas -/

theorem applyUpdate_id (o : Order) (u : UpdateData) : (applyUpdate o u).id = o.id :=
  rfl

theorem applyUpdate_empty (o : Order) : applyUpdate o {} = o :=
  rfl

/-- `find?` by id commutes with `updateOrderList` for id-preserving
updates. -/
theorem find_updateOrderList (os : List Order) (oid : Nat) (f : Order → Order)
    (hf : ∀ o, (f o).id = o.id) :
    (updateOrderList os oid f).find? (fun o => decide (o.id = oid))
      = (os.find? (fun o => decide (o.id = oid))).map f := by
  induction os with
  | nil => rfl
  | cons o t ih =>
    by_cases h : o.id = oid
    · simp only [updateOrderList, List.map_cons, List.find?_cons, h, if_pos,
        hf, decide_True]
      rfl
    · simp only [updateOrderList, List.map_cons, List.find?_cons, h, if_neg,
        decide_False, not_false_iff]
      exact ih

/-- Updating every matched row to itself leaves the order list unchanged. -/
theorem updateOrderList_congr_id (os : List Order) (oid : Nat) (f : Order → Order)
    (hf : ∀ o, f o = o) : updateOrderList os oid f = os := by
  induction os with
  | nil => rfl
  | cons o t ih =>
    simp only [updateOrderList, List.map_cons] at *
    rw [ih]
    by_cases h : o.id = oid <;> simp [h, hf]

/-! ## Concrete scenario: one product, one variant -/

/-- Demo product with basePrice 10000 (the spec's scenario values). -/
def demoProduct : Product :=
  { id := "p1", title := "Camiseta", basePrice := 10000, imageUrl := none }

/-- Demo variant `M` of `demoProduct` with the given stock and no price
override. -/
def demoVariant (stock : Int) : Variant :=
  { id := "v1", name := "M", stock := stock, price := none, product := demoProduct }

/-- Store holding only `demoVariant stock`. -/
def demoDB (stock : Int) : DB :=
  { variants := [demoVariant stock], orders := [], transactions := [] }

/-- A request line for variant `M` with the given quantity. -/
def demoItem (qty : Int) : ItemReq :=
  { productId := "p1", variantId := "M", qty := qty }

/-- A plain create request (no customizations) with the given quantities. -/
def demoReq (qtys : List Int) : CreateReq :=
  { userId := none, items := qtys.map demoItem, customName := none,
    customNumber := none, hasPatch := false }

/-! Scenario for C1: stock 5; order 0 asks for 2 units, order 1 for 4; both
pass the soft check at creation.  Paying order 1 leaves stock 1; paying
order 0 should then abort per the spec, but the code decrements anyway. -/

def c1db1 : DB := (runCreate (demoDB 5) (demoReq [2])).1
def c1db2 : DB := (runCreate c1db1 (demoReq [4])).1
def c1db3 : DB := (patchOrderStatus c1db2 1 .paid).1
def c1res : DB × Resp := patchOrderStatus c1db3 0 .paid

/-- C1: the pending→paid transition of `PATCH /api/orders/[id]` does NOT
re-verify stock: with stock 1 and a pending order for 2 units (reached
through the API), the transition succeeds, sets the order `paid` and drives
the variant's stock to −1, instead of failing all-or-nothing. -/
theorem c1_paid_transition_skips_stock_check :
    (runCreate (demoDB 5) (demoReq [2])).2 = .created 0 ∧
    (runCreate c1db1 (demoReq [4])).2 = .created 1 ∧
    c1db3.variants.map Variant.stock = [1] ∧
    (c1db3.orders.find? (fun o => decide (o.id = 0))).map Order.status =
      some .pending ∧
    c1res.2 = .patched ∧
    c1res.1.variants.map Variant.stock = [-1] ∧
    (c1res.1.orders.find? (fun o => decide (o.id = 0))).map Order.status =
      some .paid := by
  decide

/-! Scenario for C2: stock 1; two orders each for 1 unit both pass the soft
check; paying both drives stock to −1. -/

def c2db1 : DB := (runCreate (demoDB 1) (demoReq [1])).1
def c2db2 : DB := (runCreate c2db1 (demoReq [1])).1
def c2db3 : DB := (patchOrderStatus c2db2 0 .paid).1
def c2res : DB × Resp := patchOrderStatus c2db3 1 .paid

/-- C2: the invariant `ProductVariant.stock ≥ 0` fails on a reachable
state: two orders for the last unit are both created (stock 1), paying the
first leaves stock 0, and paying the second succeeds and leaves stock −1. -/
theorem c2_stock_goes_negative :
    (runCreate (demoDB 1) (demoReq [1])).2 = .created 0 ∧
    (runCreate c2db1 (demoReq [1])).2 = .created 1 ∧
    c2db3.variants.map Variant.stock = [0] ∧
    c2res.2 = .patched ∧
    c2res.1.variants.map Variant.stock = [-1] := by
  decide

/-! Scenario for C3: stock 5; order 0 asks for 2 units; pay it twice. -/

def c3db1 : DB := (runCreate (demoDB 5) (demoReq [2])).1
def c3db2 : DB := (patchOrderStatus c3db1 0 .paid).1
def c3res : DB × Resp := patchOrderStatus c3db2 0 .paid

/-- C3: a second transition to `paid` on an already-paid order does not
fail: `PATCH /api/orders/[id]` returns success and decrements the stock a
second time (5 → 3 → 1) instead of rejecting with a conflict. -/
theorem c3_double_paid_decrements_twice :
    (runCreate (demoDB 5) (demoReq [2])).2 = .created 0 ∧
    (c3db2.orders.find? (fun o => decide (o.id = 0))).map Order.status =
      some .paid ∧
    c3db2.variants.map Variant.stock = [3] ∧
    c3res.2 = .patched ∧
    c3res.1.variants.map Variant.stock = [1] := by
  decide

/-! Scenario for C5/C10: a product with basePrice 25000, so an order for two
units totals 50000 (the spec's deposit scenario). -/

def retroProduct : Product :=
  { id := "p2", title := "Retro", basePrice := 25000, imageUrl := none }

def retroDB : DB :=
  { variants := [{ id := "v2", name := "L", stock := 9, price := none,
                   product := retroProduct }],
    orders := [], transactions := [] }

def retroReq : CreateReq :=
  { userId := none,
    items := [{ productId := "p2", variantId := "L", qty := 2 }],
    customName := none, customNumber := none, hasPatch := false }

def c5db1 : DB := (runCreate retroDB retroReq).1
def c5db2 : DB :=
  (patchSellerOrder c5db1 0 { status := none, depositAmount := some 20000 } "admin").1
def c5db3 : DB :=
  (patchSellerOrder c5db2 0 { status := some .paid, depositAmount := none } "admin").1
def c5db4 : DB :=
  (patchSellerOrder c5db3 0 { status := some .pending, depositAmount := none } "admin").1
def c5res : DB × Resp :=
  patchSellerOrder c5db4 0 { status := some .paid, depositAmount := none } "admin"

/-- C5 counterexample: a pending order with a recorded deposit (non-null
`depositTransactionId`, totalPrice 50000, deposit 20000, balance 30000 > 0)
whose transition to `paid` creates NO ledger transaction — reached through
the API by paying the order, reverting it to `pending` (the seller route
allows this), and paying again: the existing `balanceTransactionId` guard
skips the transaction the claim promises. -/
theorem c5_counterexample_no_second_balance_txn :
    (c5db4.orders.find? (fun o => decide (o.id = 0))).map Order.status =
      some .pending ∧
    (c5db4.orders.find? (fun o => decide (o.id = 0))).map
        Order.depositTransactionId = some (some 1) ∧
    (c5db4.orders.find? (fun o => decide (o.id = 0))).map Order.depositAmount =
      some (some 20000) ∧
    (c5db4.orders.find? (fun o => decide (o.id = 0))).map Order.totalPrice =
      some 50000 ∧
    c5db4.transactions.length = 2 ∧
    c5res.1.transactions.length = 2 ∧
    c5res.2 = .patched := by
  decide

/-- C9 counterexample: an item list whose every reference resolves (both
lines name the existing variant `M`) is nevertheless rejected with
`PRODUCT_MISMATCH`, because the route compares the count of fetched
variant rows (deduplicated by the `name in` query) with the item count. -/
theorem c9_counterexample_duplicate_items_rejected :
    (runCreate (demoDB 5) (demoReq [1, 1])).2 = .productMismatch ∧
    (demoReq [1, 1]).items.all
        (fun it =>
          ((demoDB 5).variants.find?
              (fun v => decide (v.name = it.variantId))).isSome) = true := by
  decide

def c10db1 : DB := (runCreate retroDB retroReq).1
def c10res : DB × Resp :=
  patchSellerOrder c10db1 0 { status := some .paid, depositAmount := none } "admin"

/-- C10 counterexample: an order with NO recorded deposit (null
`depositTransactionId`) transitioned to `paid` DOES create a ledger
transaction — one INCOME for the full `totalPrice` (50000) — contrary to
the claim that the paid-transition creates one only when a prior deposit
exists. -/
theorem c10_counterexample_full_payment_creates_txn :
    (c10db1.orders.find? (fun o => decide (o.id = 0))).map
        Order.depositTransactionId = some none ∧
    c10db1.transactions = [] ∧
    c10res.1.transactions.map Txn.amount = [50000] ∧
    c10res.1.transactions.map Txn.txType = [.income] ∧
    (c10res.1.orders.find? (fun o => decide (o.id = 0))).map Order.status =
      some .paid := by
  decide

/-- The `updateData` the seller route builds when recording a deposit. -/
def depositUpdate (d : Int) (tid : Nat) : UpdateData :=
  { status := none, depositAmount := some d, depositPaidAt := some (),
    depositTransactionId := some tid, balancePaidAt := none,
    balanceTransactionId := none }

/-- The deposit INCOME ledger row the seller route creates. -/
def depositTxn (tid : Nat) (uid : String) (d : Int) : Txn :=
  { id := tid, userId := uid, txType := .income, amount := d,
    description := "Seña del pedido", category := "venta" }

/-- First deposit request on an order without a recorded deposit: one
ledger row appended, deposit fields stamped through `updateData`. -/
theorem patchSeller_deposit_records (db : DB) (oid : Nat) (d : Int)
    (adminId : String) (o : Order)
    (hfind : db.orders.find? (fun x => decide (x.id = oid)) = some o)
    (hnone : o.depositTransactionId = none) :
    patchSellerOrder db oid { status := none, depositAmount := some d } adminId
      = ({ db with
            transactions := db.transactions ++
              [depositTxn (db.transactions.length + 1) (o.userId.getD adminId) d],
            orders := updateOrderList db.orders oid
              (fun x => applyUpdate x
                (depositUpdate d (db.transactions.length + 1))) },
         .patched) := by
  simp [patchSellerOrder, hfind, hnone, depositTxn, depositUpdate]

/-- A deposit request on an order that already has a `depositTransactionId`
leaves the whole store unchanged. -/
theorem patchSeller_deposit_noop (db : DB) (oid : Nat) (d : Int)
    (adminId : String) (o : Order) (t : Nat)
    (hfind : db.orders.find? (fun x => decide (x.id = oid)) = some o)
    (ht : o.depositTransactionId = some t) :
    patchSellerOrder db oid { status := none, depositAmount := some d } adminId
      = (db, .patched) := by
  simp [patchSellerOrder, hfind, ht,
    updateOrderList_congr_id _ _ _ applyUpdate_empty]

/-- C6: deposit recording is idempotent for the ledger: on an order with no
recorded deposit, the first deposit request creates exactly one ledger
transaction and stamps the deposit fields; once `depositTransactionId` is
non-null, a second deposit request is a complete no-op on the store (no new
ledger entry, deposit fields untouched). -/
theorem c6_deposit_recording_idempotent (db : DB) (oid : Nat) (d1 d2 : Int)
    (adminId : String) (o : Order)
    (hfind : db.orders.find? (fun x => decide (x.id = oid)) = some o)
    (hnone : o.depositTransactionId = none) :
    ((patchSellerOrder db oid
        { status := none, depositAmount := some d1 } adminId).1.transactions.length
      = db.transactions.length + 1) ∧
    ((patchSellerOrder
        (patchSellerOrder db oid
          { status := none, depositAmount := some d1 } adminId).1
        oid { status := none, depositAmount := some d2 } adminId).1
      = (patchSellerOrder db oid
          { status := none, depositAmount := some d1 } adminId).1) ∧
    (∃ o1,
      ((patchSellerOrder db oid
          { status := none, depositAmount := some d1 } adminId).1.orders.find?
        (fun x => decide (x.id = oid)) = some o1) ∧
      o1.depositTransactionId = some (db.transactions.length + 1) ∧
      o1.depositAmount = some d1 ∧
      o1.depositPaidAt = some ()) := by
  have h1 := patchSeller_deposit_records db oid d1 adminId o hfind hnone
  have hfind1 :
      (patchSellerOrder db oid
        { status := none, depositAmount := some d1 } adminId).1.orders.find?
          (fun x => decide (x.id = oid))
        = some (applyUpdate o (depositUpdate d1 (db.transactions.length + 1))) := by
    rw [h1]
    show (updateOrderList db.orders oid _).find? _ = _
    rw [find_updateOrderList _ _ _ (fun x => applyUpdate_id x _), hfind]
    rfl
  refine ⟨by rw [h1]; simp, ?_, ?_⟩
  · rw [patchSeller_deposit_noop _ oid d2 adminId
      (applyUpdate o (depositUpdate d1 (db.transactions.length + 1)))
      (db.transactions.length + 1) hfind1 rfl]
  · exact ⟨_, hfind1, rfl, rfl, rfl⟩

/-- The balance INCOME ledger row the seller route creates on the paid
transition. -/
def balanceTxn (tid : Nat) (uid : String) (amt : Int) : Txn :=
  { id := tid, userId := uid, txType := .income, amount := amt,
    description := "Saldo del pedido", category := "venta" }

/-- The `updateData` the seller route builds when settling the balance on
the paid transition. -/
def balanceUpdate (tid : Nat) : UpdateData :=
  { status := some .paid, depositAmount := none, depositPaidAt := none,
    depositTransactionId := none, balancePaidAt := some (),
    balanceTransactionId := some tid }

/-- C5 (amended): for every pending order with a previously recorded
deposit (non-null `depositTransactionId`, positive recorded
`depositAmount`), `totalPrice − depositAmount > 0` **and no balance
transaction recorded yet** (`balanceTransactionId` null), the transition to
`paid` appends exactly one INCOME ledger transaction of amount
`totalPrice − depositAmount` and stamps `balancePaidAt` and
`balanceTransactionId` on the order. -/
theorem c5_paid_creates_balance_txn (db : DB) (oid : Nat) (adminId : String)
    (o : Order) (dt : Nat) (d : Int)
    (hfind : db.orders.find? (fun x => decide (x.id = oid)) = some o)
    (hpend : o.status = .pending)
    (hdt : o.depositTransactionId = some dt)
    (hd : o.depositAmount = some d)
    (hdpos : 0 < d)
    (hbal : 0 < o.totalPrice - d)
    (hbt : o.balanceTransactionId = none) :
    (patchSellerOrder db oid
        { status := some .paid, depositAmount := none } adminId
      = ({ db with
            transactions := db.transactions ++
              [balanceTxn (db.transactions.length + 1) (o.userId.getD adminId)
                (o.totalPrice - d)],
            orders := updateOrderList db.orders oid
              (fun x => applyUpdate x
                (balanceUpdate (db.transactions.length + 1))) },
         .patched)) ∧
    (∃ o2,
      ((patchSellerOrder db oid
          { status := some .paid, depositAmount := none } adminId).1.orders.find?
        (fun x => decide (x.id = oid)) = some o2) ∧
      o2.status = .paid ∧
      o2.balancePaidAt = some () ∧
      o2.balanceTransactionId = some (db.transactions.length + 1) ∧
      o2.depositTransactionId = some dt ∧
      o2.depositAmount = some d) := by
  have hne : o.status ≠ OrderStatus.paid := by rw [hpend]; intro h; cases h
  have h1 : patchSellerOrder db oid
      { status := some .paid, depositAmount := none } adminId
      = ({ db with
            transactions := db.transactions ++
              [balanceTxn (db.transactions.length + 1) (o.userId.getD adminId)
                (o.totalPrice - d)],
            orders := updateOrderList db.orders oid
              (fun x => applyUpdate x
                (balanceUpdate (db.transactions.length + 1))) },
         .patched) := by
    simp [patchSellerOrder, hfind, hd, hbt, hne, jsOrInt, hdpos.ne', hbal,
      balanceTxn, balanceUpdate]
  refine ⟨h1, ?_⟩
  have hfind1 :
      (patchSellerOrder db oid
        { status := some .paid, depositAmount := none } adminId).1.orders.find?
          (fun x => decide (x.id = oid))
        = some (applyUpdate o (balanceUpdate (db.transactions.length + 1))) := by
    rw [h1]
    show (updateOrderList db.orders oid _).find? _ = _
    rw [find_updateOrderList _ _ _ (fun x => applyUpdate_id x _), hfind]
    rfl
  refine ⟨_, hfind1, rfl, rfl, rfl, ?_, ?_⟩
  · show (match (none : Option Nat) with
      | some t => some t | none => o.depositTransactionId) = some dt
    simpa using hdt
  · show (match (none : Option Int) with
      | some x => some x | none => o.depositAmount) = some d
    simpa using hd

def wOrderC5 : Order :=
  { id := 0, userId := none, status := .pending, subtotal := 50000,
    totalPrice := 50000, depositAmount := some 20000, depositPaidAt := some (),
    depositTransactionId := some 1, balancePaidAt := none,
    balanceTransactionId := none, items := [] }

def wDBC5 : DB :=
  { variants := [], orders := [wOrderC5],
    transactions := [depositTxn 1 "admin" 20000] }

/-- Witness for `c5_paid_creates_balance_txn`: totalPrice 50000 with a
recorded deposit of 20000 yields one INCOME of 30000. -/
theorem c5_paid_creates_balance_txn_witness :
    (patchSellerOrder wDBC5 0
        { status := some .paid, depositAmount := none } "admin"
      = ({ wDBC5 with
            transactions := wDBC5.transactions ++
              [balanceTxn (wDBC5.transactions.length + 1)
                (wOrderC5.userId.getD "admin") (wOrderC5.totalPrice - 20000)],
            orders := updateOrderList wDBC5.orders 0
              (fun x => applyUpdate x
                (balanceUpdate (wDBC5.transactions.length + 1))) },
         .patched)) ∧
    (∃ o2,
      ((patchSellerOrder wDBC5 0
          { status := some .paid, depositAmount := none } "admin").1.orders.find?
        (fun x => decide (x.id = 0)) = some o2) ∧
      o2.status = .paid ∧
      o2.balancePaidAt = some () ∧
      o2.balanceTransactionId = some (wDBC5.transactions.length + 1) ∧
      o2.depositTransactionId = some 1 ∧
      o2.depositAmount = some 20000) :=
  c5_paid_creates_balance_txn wDBC5 0 "admin" wOrderC5 1 20000 rfl rfl rfl rfl
    (by decide) (by decide) rfl

/-- C10 (amended): for every pending order with NO previously recorded
deposit (null `depositTransactionId` and null `depositAmount`), positive
`totalPrice` and no recorded balance transaction, the transition to `paid`
creates exactly one ledger INCOME transaction — for the FULL `totalPrice`
— and stamps `balancePaidAt`/`balanceTransactionId`; it is not the case
that no transaction is created. -/
theorem c10_paid_full_amount_txn (db : DB) (oid : Nat) (adminId : String)
    (o : Order)
    (hfind : db.orders.find? (fun x => decide (x.id = oid)) = some o)
    (hpend : o.status = .pending)
    (hdt : o.depositTransactionId = none)
    (hda : o.depositAmount = none)
    (hbt : o.balanceTransactionId = none)
    (htp : 0 < o.totalPrice) :
    patchSellerOrder db oid
        { status := some .paid, depositAmount := none } adminId
      = ({ db with
            transactions := db.transactions ++
              [balanceTxn (db.transactions.length + 1) (o.userId.getD adminId)
                o.totalPrice],
            orders := updateOrderList db.orders oid
              (fun x => applyUpdate x
                (balanceUpdate (db.transactions.length + 1))) },
         .patched) := by
  have hne : o.status ≠ OrderStatus.paid := by rw [hpend]; intro h; cases h
  simp [patchSellerOrder, hfind, hda, hbt, hne, jsOrInt, htp,
    balanceTxn, balanceUpdate]

def wOrderC10 : Order :=
  { id := 0, userId := none, status := .pending, subtotal := 50000,
    totalPrice := 50000, depositAmount := none, depositPaidAt := none,
    depositTransactionId := none, balancePaidAt := none,
    balanceTransactionId := none, items := [] }

def wDBC10 : DB :=
  { variants := [], orders := [wOrderC10], transactions := [] }

/-- Witness for `c10_paid_full_amount_txn`: a full (non-deposit) payment of
50000 creates one INCOME of 50000. -/
theorem c10_paid_full_amount_txn_witness :
    patchSellerOrder wDBC10 0
        { status := some .paid, depositAmount := none } "admin"
      = ({ wDBC10 with
            transactions := wDBC10.transactions ++
              [balanceTxn (wDBC10.transactions.length + 1)
                (wOrderC10.userId.getD "admin") wOrderC10.totalPrice],
            orders := updateOrderList wDBC10.orders 0
              (fun x => applyUpdate x
                (balanceUpdate (wDBC10.transactions.length + 1))) },
         .patched) :=
  c10_paid_full_amount_txn wDBC10 0 "admin" wOrderC10 rfl rfl rfl rfl rfl
    (by decide)

def wOrderC6 : Order :=
  { id := 0, userId := none, status := .pending, subtotal := 50000,
    totalPrice := 50000, depositAmount := none, depositPaidAt := none,
    depositTransactionId := none, balancePaidAt := none,
    balanceTransactionId := none, items := [] }

def wDBC6 : DB :=
  { variants := [], orders := [wOrderC6], transactions := [] }

/-- Witness for `c6_deposit_recording_idempotent`: two identical deposit
requests of 20000 create exactly one ledger row. -/
theorem c6_deposit_recording_idempotent_witness :
    ((patchSellerOrder wDBC6 0
        { status := none, depositAmount := some 20000 } "admin").1.transactions.length
      = wDBC6.transactions.length + 1) ∧
    ((patchSellerOrder
        (patchSellerOrder wDBC6 0
          { status := none, depositAmount := some 20000 } "admin").1
        0 { status := none, depositAmount := some 20000 } "admin").1
      = (patchSellerOrder wDBC6 0
          { status := none, depositAmount := some 20000 } "admin").1) ∧
    (∃ o1,
      ((patchSellerOrder wDBC6 0
          { status := none, depositAmount := some 20000 } "admin").1.orders.find?
        (fun x => decide (x.id = 0)) = some o1) ∧
      o1.depositTransactionId = some (wDBC6.transactions.length + 1) ∧
      o1.depositAmount = some 20000 ∧
      o1.depositPaidAt = some ()) :=
  c6_deposit_recording_idempotent wDBC6 0 20000 20000 "admin" wOrderC6 rfl rfl

/-! ## Lemmas about the create route -/

/-- The stock/subtotal loop only fails with `badRequest` (unresolvable
lookup) or `outOfStock`, never any other response. -/
theorem stockCheck_error_shape (vs : List Variant) :
    ∀ (items : List ItemReq) (e : Resp),
      stockCheckSubtotal vs items = .error e →
      e = .badRequest ∨ ∃ s, e = .outOfStock s := by
  intro items
  induction items with
  | nil => intro e h; simp [stockCheckSubtotal] at h
  | cons it rest ih =>
    intro e h
    rw [stockCheckSubtotal] at h
    split at h
    · exact Or.inl (Except.error.inj h).symm
    · split at h
      · exact Or.inr ⟨_, (Except.error.inj h).symm⟩
      · split at h
        next e2 he2 => exact (Except.error.inj h) ▸ ih e2 he2
        next s hs => cases h

/-- The snapshot loop preserves the item count. -/
theorem snapshotItems_length (vs : List Variant) :
    ∀ (items : List ItemReq) (ls : List OrderItem),
      snapshotItems vs items = some ls → ls.length = items.length := by
  intro items
  induction items with
  | nil => intro ls h; cases h; rfl
  | cons it rest ih =>
    intro ls h
    rw [snapshotItems] at h
    split at h
    · cases h
    · split at h
      · cases h
      next tl htl =>
        cases h
        simp [ih tl htl]

/-- An item resolves against the fetched rows with sufficient stock. -/
def resolvesOk (vs : List Variant) (it : ItemReq) : Prop :=
  ∃ v, vs.find? (fun w => decide (w.name = it.variantId)) = some v ∧
    ¬ v.stock < it.qty

/-- When every earlier item passes and one item's quantity exceeds its
resolved variant's stock, the loop stops with that item's `OUT_OF_STOCK`. -/
theorem stockCheck_outOfStock (vs : List Variant) :
    ∀ (pre : List ItemReq) (bad : ItemReq) (rest : List ItemReq) (v : Variant),
      (∀ it ∈ pre, resolvesOk vs it) →
      vs.find? (fun w => decide (w.name = bad.variantId)) = some v →
      v.stock < bad.qty →
      stockCheckSubtotal vs (pre ++ bad :: rest)
        = .error (.outOfStock (v.product.title ++ " - " ++ v.name)) := by
  intro pre
  induction pre with
  | nil =>
    intro bad rest v _ hfind hbad
    simp [stockCheckSubtotal, hfind, hbad]
  | cons p t ih =>
    intro bad rest v hpre hfind hbad
    obtain ⟨w, hw, hnl⟩ := hpre p (by simp)
    have hrec := ih bad rest v (fun it hit => hpre it (by simp [hit])) hfind hbad
    simp only [List.cons_append, stockCheckSubtotal, hw, if_neg hnl,
      List.append_eq]
    rw [hrec]

/-- C7: a successful create persists exactly the new order (status
`pending`, one snapshot row per requested item, fresh deposit/balance
fields) and leaves every variant's stock and the ledger untouched. -/
theorem c7_create_pending_frame (db : DB) (r : CreateReq) (db1 : DB) (n : Nat)
    (h : runCreate db r = (db1, .created n)) :
    db1.variants = db.variants ∧
    db1.transactions = db.transactions ∧
    n = db.orders.length ∧
    ∃ o, db1.orders = db.orders ++ [o] ∧
      o.status = .pending ∧
      o.id = n ∧
      o.userId = r.userId ∧
      o.items.length = r.items.length ∧
      o.depositTransactionId = none ∧
      o.balanceTransactionId = none ∧
      o.totalPrice = o.subtotal + extras r := by
  simp only [runCreate] at h
  split at h
  · cases (Prod.mk.injEq _ _ _ _ ▸ h).2
  · split at h
    case h_1 e he =>
      rcases stockCheck_error_shape _ _ _ he with h1 | ⟨s, h1⟩ <;>
        · cases h1 ▸ (Prod.mk.injEq _ _ _ _ ▸ h).2
    case h_2 s hs =>
      split at h
      · cases (Prod.mk.injEq _ _ _ _ ▸ h).2
      case h_2 lines hl =>
        obtain ⟨hdb, hresp⟩ := Prod.mk.injEq _ _ _ _ ▸ h
        cases hresp
        refine ⟨by rw [← hdb], by rw [← hdb], rfl, _, by rw [← hdb], rfl, rfl,
          rfl, snapshotItems_length _ _ _ hl, rfl, rfl, rfl⟩

/-- Witness for `c7_create_pending_frame`: V.stock = 5, qty = 2,
basePrice = 10000 gives a pending order with subtotal 20000 and the stock
left at 5. -/
theorem c7_create_pending_frame_witness :
    ((runCreate (demoDB 5) (demoReq [2])).1.variants = (demoDB 5).variants ∧
     (runCreate (demoDB 5) (demoReq [2])).1.transactions
        = (demoDB 5).transactions ∧
     0 = (demoDB 5).orders.length ∧
     ∃ o, (runCreate (demoDB 5) (demoReq [2])).1.orders
          = (demoDB 5).orders ++ [o] ∧
       o.status = .pending ∧
       o.id = 0 ∧
       o.userId = (demoReq [2]).userId ∧
       o.items.length = (demoReq [2]).items.length ∧
       o.depositTransactionId = none ∧
       o.balanceTransactionId = none ∧
       o.totalPrice = o.subtotal + extras (demoReq [2])) ∧
    (runCreate (demoDB 5) (demoReq [2])).2 = .created 0 ∧
    (runCreate (demoDB 5) (demoReq [2])).1.orders.map Order.subtotal
      = [20000] ∧
    (runCreate (demoDB 5) (demoReq [2])).1.variants.map Variant.stock = [5] :=
  ⟨c7_create_pending_frame (demoDB 5) (demoReq [2])
      (runCreate (demoDB 5) (demoReq [2])).1 0 (by decide),
   by decide, by decide, by decide⟩

/-- C8: when the fetched-row count matches, every item before some line
resolves with sufficient stock, and that line's quantity exceeds its
resolved variant's stock, create fails with `OUT_OF_STOCK` naming that
line's product and variant, and the store is returned unchanged (no order
row persisted). -/
theorem c8_out_of_stock_aborts (db : DB) (r : CreateReq)
    (pre rest : List ItemReq) (bad : ItemReq) (v : Variant)
    (hitems : r.items = pre ++ bad :: rest)
    (hlen : (vsOf db r).length = r.items.length)
    (hpre : ∀ it ∈ pre, resolvesOk (vsOf db r) it)
    (hfind : (vsOf db r).find? (fun w => decide (w.name = bad.variantId))
      = some v)
    (hbad : v.stock < bad.qty) :
    runCreate db r = (db, .outOfStock (v.product.title ++ " - " ++ v.name)) := by
  simp only [runCreate]
  rw [if_neg (by simp [hlen])]
  rw [hitems, stockCheck_outOfStock (vsOf db r) pre bad rest v hpre hfind hbad]

/-- Witness for `c8_out_of_stock_aborts`: requesting 2 units with stock 1
fails with `OUT_OF_STOCK` identifying "Camiseta - M" and persists nothing. -/
theorem c8_out_of_stock_aborts_witness :
    runCreate (demoDB 1) (demoReq [2])
      = (demoDB 1,
         .outOfStock ((demoVariant 1).product.title ++ " - "
            ++ (demoVariant 1).name)) :=
  c8_out_of_stock_aborts (demoDB 1) (demoReq [2]) [] [] (demoItem 2)
    (demoVariant 1) rfl (by decide) (by simp) (by decide) (by decide)

/-- C9 (amended): create fails with `PRODUCT_MISMATCH` exactly when the
number of fetched variant rows (catalog rows whose name occurs among the
requested variantIds, deduplicated by the `name in` query) differs from the
number of requested items — not exactly when some reference is
unresolvable. -/
theorem c9_mismatch_iff_row_count (db : DB) (r : CreateReq) :
    (runCreate db r).2 = .productMismatch
      ↔ (vsOf db r).length ≠ r.items.length := by
  constructor
  · intro h
    by_contra hlen
    simp only [runCreate] at h
    rw [if_neg (fun hc => hc hlen)] at h
    revert h
    split
    case h_1 e he =>
      rcases stockCheck_error_shape _ _ _ he with h1 | ⟨s, h1⟩ <;>
        · subst h1; intro h; cases h
    case h_2 s hs =>
      split
      · intro h; cases h
      · intro h; cases h
  · intro hlen
    simp only [runCreate]
    rw [if_pos hlen]

/-! ## Pricing: the spec's formula versus the loop -/

/-- The spec's unit-price formula resolved directly against the catalog:
variant price override when present, else the product's basePrice, times
the quantity (0 when the reference does not resolve). -/
def specLineTotal (db : DB) (it : ItemReq) : Int :=
  match db.variants.find? (fun v => decide (v.name = it.variantId)) with
  | some v => (v.price.getD v.product.basePrice) * it.qty
  | none => 0

/-- The spec's subtotal Σ(unitPrice_i × qty_i). -/
def specSubtotal (db : DB) (r : CreateReq) : Int :=
  (r.items.map (specLineTotal db)).sum

/-- The line amount the route's loop accumulates, resolved against the
fetched rows. -/
def lineAmt (vs : List Variant) (it : ItemReq) : Int :=
  match vs.find? (fun v => decide (v.name = it.variantId)) with
  | some v => (v.price.getD v.product.basePrice) * it.qty
  | none => 0

/-- Looking a name up in the filtered rows agrees with looking it up in the
whole catalog, provided the name is among the requested ones. -/
theorem find_filter_of_mem (l : List Variant) (names : List String) (x : String)
    (hx : x ∈ names) :
    (l.filter (fun v => decide (v.name ∈ names))).find?
        (fun v => decide (v.name = x))
      = l.find? (fun v => decide (v.name = x)) := by
  induction l with
  | nil => rfl
  | cons v t ih =>
    by_cases hv : v.name ∈ names
    · rw [List.filter_cons_of_pos (by simpa using hv)]
      by_cases he : v.name = x
      · rw [List.find?_cons_of_pos _ (by simpa using he),
          List.find?_cons_of_pos _ (by simpa using he)]
      · rw [List.find?_cons_of_neg _ (by simpa using he),
          List.find?_cons_of_neg _ (by simpa using he), ih]
    · rw [List.filter_cons_of_neg (by simpa using hv), ih,
        List.find?_cons_of_neg _
          (by simpa using fun (he : v.name = x) => hv (he.symm ▸ hx))]

/-- A successful loop means every item resolved with sufficient stock and
the result is the sum of the line amounts. -/
theorem stockCheck_ok_parts (vs : List Variant) :
    ∀ (items : List ItemReq) (s : Int),
      stockCheckSubtotal vs items = .ok s →
      (∀ it ∈ items, resolvesOk vs it) ∧ s = (items.map (lineAmt vs)).sum := by
  intro items
  induction items with
  | nil =>
    intro s h
    refine ⟨by simp, ?_⟩
    simp only [stockCheckSubtotal] at h
    simp [← Except.ok.inj h]
  | cons it rest ih =>
    intro s h
    rw [stockCheckSubtotal] at h
    split at h
    · cases h
    next v hv =>
      split at h
      · cases h
      next hs =>
        split at h
        · cases h
        next s2 hs2 =>
          obtain ⟨hall, hsum⟩ := ih s2 hs2
          cases h
          refine ⟨?_, ?_⟩
          · intro x hx
            rcases List.mem_cons.mp hx with rfl | hx2
            · exact ⟨v, hv, hs⟩
            · exact hall x hx2
          · simp [List.map_cons, List.sum_cons, lineAmt, hv, hsum]

/-- Converse: when every item resolves with sufficient stock the loop
succeeds with the sum of the line amounts. -/
theorem stockCheck_ok_of_all (vs : List Variant) :
    ∀ (items : List ItemReq),
      (∀ it ∈ items, resolvesOk vs it) →
      stockCheckSubtotal vs items = .ok ((items.map (lineAmt vs)).sum) := by
  intro items
  induction items with
  | nil => intro _; simp [stockCheckSubtotal]
  | cons it rest ih =>
    intro hall
    obtain ⟨v, hv, hs⟩ := hall it (by simp)
    have hrec := ih (fun x hx => hall x (by simp [hx]))
    simp only [stockCheckSubtotal, hv, if_neg hs, hrec, List.map_cons,
      List.sum_cons, lineAmt]

/-- When every item resolves, the snapshot loop succeeds. -/
theorem snapshotItems_isSome_of_all (vs : List Variant) :
    ∀ (items : List ItemReq),
      (∀ it ∈ items,
        (vs.find? (fun w => decide (w.name = it.variantId))).isSome) →
      ∃ ls, snapshotItems vs items = some ls := by
  intro items
  induction items with
  | nil => intro _; exact ⟨[], rfl⟩
  | cons it rest ih =>
    intro hall
    obtain ⟨v, hv⟩ := Option.isSome_iff_exists.mp (hall it (by simp))
    obtain ⟨ls, hls⟩ := ih (fun x hx => hall x (by simp [hx]))
    refine ⟨{ productId := v.product.id, variantId := some v.id,
              title := v.product.title ++ " (" ++ v.name ++ ")",
              price := v.price.getD v.product.basePrice,
              quantity := it.qty, imageUrl := v.product.imageUrl } :: ls, ?_⟩
    simp only [snapshotItems, hv, hls]

/-- Permuting the requested items does not change the fetched rows. -/
theorem vsOf_perm_eq (db : DB) (r1 r2 : CreateReq)
    (hp : r1.items.Perm r2.items) :
    vsOf db r2 = vsOf db r1 := by
  unfold vsOf
  apply List.filter_congr
  intro v _
  exact decide_eq_decide.mpr ((hp.map ItemReq.variantId).mem_iff).symm

/-- Inversion of a successful create. -/
theorem runCreate_ok_inv (db : DB) (r : CreateReq) (db1 : DB) (n : Nat)
    (h : runCreate db r = (db1, .created n)) :
    (vsOf db r).length = r.items.length ∧
    ∃ s lines, stockCheckSubtotal (vsOf db r) r.items = .ok s ∧
      snapshotItems (vsOf db r) r.items = some lines ∧
      n = db.orders.length ∧
      db1 = { db with orders := db.orders ++
        [{ id := db.orders.length, userId := r.userId, status := .pending,
           subtotal := s, totalPrice := s + extras r,
           depositAmount := none, depositPaidAt := none,
           depositTransactionId := none, balancePaidAt := none,
           balanceTransactionId := none, items := lines }] } := by
  simp only [runCreate] at h
  split at h
  · simp at h
  next hlen =>
    split at h
    next e he =>
      rcases stockCheck_error_shape _ _ _ he with h1 | ⟨s, h1⟩ <;>
        (subst h1; simp at h)
    next s hs =>
      split at h
      · simp at h
      next lines hl =>
        rw [Prod.mk.injEq] at h
        obtain ⟨hdb, hresp⟩ := h
        injection hresp with hn
        exact ⟨not_not.mp hlen, s, lines, hs, hl, hn.symm, hdb.symm⟩

/-- C4: for a valid (successfully created) item list the persisted order
has `subtotal = Σ(unitPrice_i × qty_i)` with the unit price resolved as the
variant's override else the product's basePrice, and `totalPrice =
subtotal + surcharges`; and for any permutation of the item list (same
customizations) creation succeeds with the same order id, the same
subtotal, and the same total. -/
theorem c4_totals_and_item_order (db : DB) (r1 r2 : CreateReq) (db1 : DB)
    (n : Nat)
    (hp : r1.items.Perm r2.items)
    (hn : r2.customName = r1.customName)
    (hc : r2.customNumber = r1.customNumber)
    (hb : r2.hasPatch = r1.hasPatch)
    (h1 : runCreate db r1 = (db1, .created n)) :
    (∃ o1, db1.orders.getLast? = some o1 ∧
      o1.subtotal = specSubtotal db r1 ∧
      o1.totalPrice = o1.subtotal + extras r1) ∧
    (runCreate db r2).2 = .created n ∧
    (∃ o2, (runCreate db r2).1.orders.getLast? = some o2 ∧
      o2.subtotal = specSubtotal db r1 ∧
      o2.totalPrice = o2.subtotal + extras r1) := by
  obtain ⟨hlen, s, lines, hsc, hsnap, hn1, hdb1⟩ := runCreate_ok_inv db r1 db1 n h1
  obtain ⟨hall1, hsum1⟩ := stockCheck_ok_parts _ _ _ hsc
  have hline : ∀ it ∈ r1.items, lineAmt (vsOf db r1) it = specLineTotal db it := by
    intro it hit
    unfold lineAmt specLineTotal vsOf
    rw [find_filter_of_mem db.variants _ it.variantId
      (List.mem_map_of_mem _ hit)]
  have hsubspec : s = specSubtotal db r1 := by
    rw [hsum1, specSubtotal, List.map_congr_left hline]
  have hvs : vsOf db r2 = vsOf db r1 := vsOf_perm_eq db r1 r2 hp
  have hlen2 : (vsOf db r2).length = r2.items.length := by
    rw [hvs, hlen]
    exact hp.length_eq
  have hall2 : ∀ it ∈ r2.items, resolvesOk (vsOf db r2) it := by
    intro it hit
    rw [hvs]
    exact hall1 it (hp.mem_iff.mpr hit)
  have hsc2 : stockCheckSubtotal (vsOf db r2) r2.items
      = .ok ((r2.items.map (lineAmt (vsOf db r2))).sum) :=
    stockCheck_ok_of_all _ _ hall2
  obtain ⟨ls2, hsnap2⟩ := snapshotItems_isSome_of_all (vsOf db r2) r2.items
    (fun it hit => by obtain ⟨v, hv, _⟩ := hall2 it hit; simp [hv])
  have hs2 : (r2.items.map (lineAmt (vsOf db r2))).sum = specSubtotal db r1 := by
    rw [hvs, List.map_congr_left
      (fun it hit => hline it (hp.mem_iff.mpr hit)), specSubtotal]
    exact ((hp.map (specLineTotal db)).sum_eq).symm
  have hex2 : extras r2 = extras r1 := by simp [extras, hn, hc, hb]
  have h2 : runCreate db r2
      = ({ db with orders := db.orders ++
          [{ id := db.orders.length, userId := r2.userId, status := .pending,
             subtotal := (r2.items.map (lineAmt (vsOf db r2))).sum,
             totalPrice := (r2.items.map (lineAmt (vsOf db r2))).sum + extras r2,
             depositAmount := none, depositPaidAt := none,
             depositTransactionId := none, balancePaidAt := none,
             balanceTransactionId := none, items := ls2 }] },
        .created db.orders.length) := by
    simp only [runCreate]
    rw [if_neg (fun hcon => hcon hlen2)]
    simp only [hsc2, hsnap2]
  refine ⟨?_, ?_, ?_⟩
  · subst hdb1
    exact ⟨_, List.getLast?_concat _, hsubspec, rfl⟩
  · rw [h2, hn1]
  · rw [h2]
    exact ⟨_, List.getLast?_concat _, hs2, by rw [hex2]⟩

def altProduct : Product :=
  { id := "p3", title := "Alternativa", basePrice := 12000, imageUrl := none }

def twoVarDB : DB :=
  { variants := [demoVariant 5,
      { id := "v3", name := "S", stock := 4, price := some 9000,
        product := altProduct }],
    orders := [], transactions := [] }

def reqA : CreateReq :=
  { userId := none,
    items := [demoItem 2, { productId := "p3", variantId := "S", qty := 1 }],
    customName := some "LEO", customNumber := some 10, hasPatch := true }

def reqB : CreateReq :=
  { userId := none,
    items := [{ productId := "p3", variantId := "S", qty := 1 }, demoItem 2],
    customName := some "LEO", customNumber := some 10, hasPatch := true }

/-- Witness for `c4_totals_and_item_order`: two items in either order give
subtotal 2·10000 + 1·9000 = 29000 and total 29000 + 15000 + 10000 + 20000. -/
theorem c4_totals_and_item_order_witness :
    (∃ o1, (runCreate twoVarDB reqA).1.orders.getLast? = some o1 ∧
      o1.subtotal = specSubtotal twoVarDB reqA ∧
      o1.totalPrice = o1.subtotal + extras reqA) ∧
    (runCreate twoVarDB reqB).2 = .created 0 ∧
    (∃ o2, (runCreate twoVarDB reqB).1.orders.getLast? = some o2 ∧
      o2.subtotal = specSubtotal twoVarDB reqA ∧
      o2.totalPrice = o2.subtotal + extras reqA) :=
  c4_totals_and_item_order twoVarDB reqA reqB (runCreate twoVarDB reqA).1 0
    (by decide) rfl rfl rfl (by decide)

end Hincha
